import Mathlib

/-!
Shallow embedding of the customer-support chatbot core
(src/src/graph/state.py, classifier_node.py, workflow.py, rag_node.py,
escalation_node.py and src/src/bot/rag_chain.py), together with theorems
checking the natural-language specification against it.

Modelling conventions:
* Python strings are Lean `String`s; `str.lower()`/`str.strip()` are modelled
  on the underlying character list.
* Every regex in `CATEGORY_KEYWORDS` is an alternation of literal words, so
  `re.search(pattern, query)` is modelled as "some alternative is a substring
  of the query".
* Python floats are modelled as exact rationals; `round(x, 2)` is modelled as
  round-half-to-even on the exact rational value scaled by 100.
* The external retriever and LLM completion are parameters of type
  `String → Except String _`: `.error` is a raised exception.
* `dict` values in `metadata` are modelled by the inductive `MetaVal`;
  the dict itself as a function `String → Option MetaVal`; `{**old, k: v, ...}`
  is a sequence of `setMeta` updates, and a dict literal starts from
  `emptyMeta`.
-/

/-- Values stored in the `metadata` diagnostic map (`state.py` keeps it as
`Dict[str, Any]`; only these shapes are ever written by the core). -/
inductive MetaVal where
  | mstr : String → MetaVal
  | mbool : Bool → MetaVal
  | mnat : Nat → MetaVal
  | mnone : MetaVal
  | mscores : List (String × Nat) → MetaVal
deriving DecidableEq

/-- The open string-keyed diagnostics map of `ChatbotState`. -/
def Metadata : Type := String → Option MetaVal

/-- The empty dict `{}`. -/
def emptyMeta : Metadata := fun _ => none

/-- Python dict assignment `m[k] = v` (also one step of a `{**m, k: v}` merge). -/
def setMeta (m : Metadata) (k : String) (v : MetaVal) : Metadata :=
  fun k' => if k' = k then some v else m k'

/-- A document coming back from the retriever (LangChain `Document`). -/
structure Doc where
  page_content : String
  source : String
deriving DecidableEq

/-- A retrieved document as recorded into the state by
`RAGResponseNode.generate_response`. -/
structure FormattedDoc where
  rank : Nat
  content : String
  source : String
deriving DecidableEq

/-- `ChatbotState` from `src/src/graph/state.py` (TypedDict). -/
structure ChatbotState where
  user_query : String
  classified_category : Option String
  final_response : Option String
  retrieved_documents : Option (List FormattedDoc)
  confidence_score : Option ℚ
  needs_escalation : Bool
  conversation_id : String
  timestamp : String
  metadata : Metadata

/-- `create_initial_state` from `state.py`; `datetime.now().isoformat()` and the
generated uuid are modelled as the opaque parameters `ts` and `cid`. -/
def create_initial_state (user_query : String) (cid : String) (ts : String) :
    ChatbotState :=
  { user_query := user_query
    classified_category := none
    final_response := none
    retrieved_documents := none
    confidence_score := none
    needs_escalation := false
    conversation_id := cid
    timestamp := ts
    metadata := emptyMeta }

/-! ### QueryClassifier (`classifier_node.py`) -/

/-- Patterns of the `"product"` entry of `CATEGORY_KEYWORDS`; each pattern is
the list of literal alternatives of the corresponding regex. -/
def productPatterns : List (List String) :=
  [ ["smartwatch", "smart watch", "watch"],
    ["earbuds", "earphones", "headphones"],
    ["power bank", "powerbank", "battery pack"],
    ["price", "cost", "how much"],
    ["features", "specifications", "specs"],
    ["available", "in stock", "buy", "purchase"],
    ["model", "version", "variant"],
    ["color", "colour", "size"],
    ["battery life", "charging"],
    ["warranty period", "guarantee"],
    ["water resistant", "waterproof"],
    ["compatible", "compatibility"],
    ["review", "rating", "feedback"] ]

/-- Patterns of the `"returns"` entry of `CATEGORY_KEYWORDS`. -/
def returnsPatterns : List (List String) :=
  [ ["return", "refund"],
    ["exchange", "replace", "replacement"],
    ["cancel", "cancellation"],
    ["warranty", "guarantee"],
    ["defective", "damaged", "broken", "faulty"],
    ["not working", "issue", "problem"],
    ["complaint", "dispute"],
    ["money back", "get my money"],
    ["send back", "ship back"] ]

/-- Patterns of the `"general"` entry of `CATEGORY_KEYWORDS`. -/
def generalPatterns : List (List String) :=
  [ ["support", "help", "assist"],
    ["contact", "reach", "call", "email", "phone"],
    ["hours", "timing", "when open"],
    ["shipping", "delivery", "dispatch"],
    ["payment", "pay", "cod", "cash on delivery"],
    ["track", "tracking", "order status"],
    ["account", "login", "register", "sign up"],
    ["location", "address", "store"],
    ["offer", "discount", "coupon", "deal"] ]

/-- `CATEGORY_KEYWORDS`: a Python dict literal, whose insertion order
product, returns, general is the iteration order used by `classify`. -/
def CATEGORY_KEYWORDS : List (String × List (List String)) :=
  [("product", productPatterns),
   ("returns", returnsPatterns),
   ("general", generalPatterns)]

/-- `needle` occurs as a contiguous substring of `hay`. -/
def containsSub (needle : List Char) : List Char → Bool
  | [] => needle.isEmpty
  | c :: rest => needle.isPrefixOf (c :: rest) || containsSub needle rest

/-- `re.search(pattern, query)` for a pattern that is an alternation of the
literal strings `alts` (all patterns in `CATEGORY_KEYWORDS` have this shape;
`re.IGNORECASE` is immaterial because the query was lowercased). -/
def reSearch (alts : List String) (query : String) : Bool :=
  alts.any (fun a => containsSub a.data query.data)

/-- `QueryClassifier.match_keywords` (the count component): number of distinct
patterns that match the query. -/
def match_keywords (patterns : List (List String)) (query : String) : Nat :=
  patterns.foldl (fun acc p => if reSearch p query then acc + 1 else acc) 0

/-- `str.lower().strip()` on the character list. -/
def trimChars (l : List Char) : List Char :=
  ((l.dropWhile Char.isWhitespace).reverse.dropWhile Char.isWhitespace).reverse

/-- `QueryClassifier.preprocess_query`: lowercase and trim. -/
def preprocess_query (query : String) : String :=
  ⟨trimChars (query.data.map Char.toLower)⟩

/-- The `category_scores` dict built by `classify` (iteration order of
`CATEGORY_KEYWORDS`). -/
def scoreCategories (pq : String) : List (String × Nat) :=
  CATEGORY_KEYWORDS.map (fun p => (p.1, match_keywords p.2 pq))

/-- `max(category_scores.values())` (all counts are ≥ 0, so seeding with 0 is
the same as Python's max over the nonempty value list). -/
def maxCount (scores : List (String × Nat)) : Nat :=
  scores.foldl (fun m p => Nat.max m p.2) 0

/-- `sum(category_scores.values())`. -/
def totalCount (scores : List (String × Nat)) : Nat :=
  scores.foldl (fun t p => t + p.2) 0

/-- `max(category_scores, key=category_scores.get)`: scans the dict in
insertion order keeping the current best, replacing only on a strictly larger
count, so ties go to the earliest category.  (The `[]` case is unreachable:
`CATEGORY_KEYWORDS` is nonempty.) -/
def pickMaxCat : List (String × Nat) → String × Nat
  | [] => ("general", 0)
  | x :: rest => rest.foldl (fun best p => if p.2 > best.2 then p else best) x

/-- Round-half-to-even to an integer, on exact rationals (the behaviour of
Python's `round` on the exact value; the binary floating-point representation
error of CPython is abstracted away). -/
def roundHalfEven (x : ℚ) : ℤ :=
  let f := Rat.floor x
  let r := x - (f : ℚ)
  if r < 1/2 then f
  else if 1/2 < r then f + 1
  else if f % 2 = 0 then f else f + 1

/-- Python `round(x, 2)`. -/
def round2 (x : ℚ) : ℚ := (roundHalfEven (x * 100) : ℚ) / 100

/-- Result dict of `QueryClassifier.classify`. -/
structure ClassifyResult where
  category : String
  confidence : ℚ
  scores : List (String × Nat)
deriving DecidableEq

/-- `QueryClassifier.classify` from `classifier_node.py`. -/
def classify (query : String) : ClassifyResult :=
  let scores := scoreCategories (preprocess_query query)
  let maxScore := maxCount scores
  if maxScore = 0 then
    ⟨"general", round2 (3/10), scores⟩
  else
    let winner := pickMaxCat scores
    let total := totalCount scores
    let conf0 := if 0 < total then (winner.2 : ℚ) / (total : ℚ) else 1/2
    let conf := if 1 < maxScore then min (conf0 + 1/5) 1 else conf0
    ⟨winner.1, round2 conf, scores⟩

/-- `classifier_node` from `classifier_node.py`.  `update_state` copies the
state and overwrites the listed keys, so the `metadata` dict passed there
replaces the previous `metadata` wholesale. -/
def classifier_node (state : ChatbotState) : ChatbotState :=
  if state.user_query = "" then
    { state with
      classified_category := some "general"
      confidence_score := some 0
      metadata := setMeta emptyMeta "error" (.mstr "Empty query") }
  else
    let result := classify state.user_query
    { state with
      classified_category := some result.category
      confidence_score := some result.confidence
      metadata :=
        setMeta (setMeta emptyMeta "classification_scores" (.mscores result.scores))
          "classifier_type" (.mstr "rule-based") }

/-! ### EscalationHandler (`escalation_node.py`) -/

/-- `EscalationHandler.SUPPORT_EMAIL`. -/
def SUPPORT_EMAIL : String := "support@techgear.com"

/-- `EscalationHandler.SUPPORT_PHONE`. -/
def SUPPORT_PHONE : String := "1800-123-4567"

/-- `EscalationHandler.SUPPORT_HOURS`. -/
def SUPPORT_HOURS : String := "Monday to Saturday, 9 AM to 6 PM IST"

/-- `EscalationHandler.SUPPORT_WEBSITE`. -/
def SUPPORT_WEBSITE : String := "www.techgear.com/support"

/-- `EscalationHandler._get_returns_message`. -/
def returnsMessage : String :=
  "Thank you for contacting TechGear Electronics regarding your return or refund request.\n\n📋 **Return Policy Summary:**\n• 7-day no-questions-asked return policy\n• Full refund processed within 5-7 business days\n• Product must be in original condition with all accessories\n• Free pickup available for defective products\n\n🔄 **To Process Your Return:**\nPlease contact our support team with:\n1. Order number\n2. Product name and details\n3. Reason for return (optional)\n4. Photos of the product (if defective)\n\n📞 **Contact Our Support Team:**\n• **Email:** " ++ SUPPORT_EMAIL ++ "\n• **Phone:** " ++ SUPPORT_PHONE ++ "\n• **Hours:** " ++ SUPPORT_HOURS ++ "\n• **Website:** " ++ SUPPORT_WEBSITE ++ "\n\nOur team will assist you with the return process and arrange pickup if needed. We typically respond within 2-4 hours during business hours.\n\nIs there anything else I can help you with regarding our products or policies?"

/-- `EscalationHandler._get_out_of_scope_message`. -/
def outOfScopeMessage : String :=
  "Thank you for your inquiry!\n\nI apologize, but I don't have information about that in my current knowledge base. \n\n✅ **I Can Help You With:**\n\n**Products:**\n• SmartWatch Pro X (₹15,999) - Features, specifications, warranty\n• Wireless Earbuds Elite (₹4,999) - Features, battery life, compatibility\n• Power Bank Ultra 20000mAh (₹2,499) - Capacity, charging speed, warranty\n\n**Services & Policies:**\n• Return and exchange procedures\n• Warranty coverage and claims\n• Payment methods and offers\n• Shipping and delivery information\n• Customer support and contact details\n\n📞 **For Other Inquiries:**\nPlease contact our support team directly:\n• **Email:** " ++ SUPPORT_EMAIL ++ "\n• **Phone:** " ++ SUPPORT_PHONE ++ "\n• **Hours:** " ++ SUPPORT_HOURS ++ "\n\nOur team can assist you with product recommendations, custom orders, bulk purchases, and any other questions beyond my current scope.\n\nHow else can I assist you with our available products or services?"

/-- `EscalationHandler._get_policy_inquiry_message`. -/
def policyInquiryMessage : String :=
  "Thank you for your policy inquiry!\n\nFor detailed information about our policies or if you need specific clarification, I recommend contacting our support team who can provide comprehensive guidance tailored to your situation.\n\n📋 **General Policy Information Available:**\n• Returns: 7-day return policy\n• Warranty: 1-year standard warranty on all products\n• Shipping: Free shipping on orders above ₹500\n• Payment: Multiple payment options including COD\n\n📞 **For Detailed Policy Information:**\n• **Email:** " ++ SUPPORT_EMAIL ++ "\n• **Phone:** " ++ SUPPORT_PHONE ++ "\n• **Hours:** " ++ SUPPORT_HOURS ++ "\n• **Website:** " ++ SUPPORT_WEBSITE ++ "\n\nOur support team can provide:\n• Specific policy details for your situation\n• Exception cases and special circumstances\n• Documentation and written confirmations\n• Step-by-step guidance\n\nIs there anything specific about our products I can help you with right now?"

/-- `EscalationHandler._get_general_escalation_message`. -/
def generalEscalationMessage : String :=
  "Thank you for contacting TechGear Electronics!\n\nFor personalized assistance with your inquiry, I recommend reaching out to our support team who can provide detailed help tailored to your needs.\n\n📞 **Contact Our Support Team:**\n• **Email:** " ++ SUPPORT_EMAIL ++ "\n• **Phone:** " ++ SUPPORT_PHONE ++ "\n• **Hours:** " ++ SUPPORT_HOURS ++ "\n• **Website:** " ++ SUPPORT_WEBSITE ++ "\n\n⚡ **Quick Response Times:**\n• Email: 2-4 hours during business hours\n• Phone: Immediate assistance\n• Chat: Available on our website\n\n💬 **Meanwhile, I Can Help With:**\n• Product features, specifications, and pricing\n• Warranty information and coverage\n• Return policy and procedures\n• Payment methods and shipping details\n• General product information\n\nWould you like to know more about any of our products (SmartWatch Pro X, Wireless Earbuds Elite, or Power Bank Ultra)?"

/-- `EscalationHandler.should_escalate`: membership of the category in the
`escalation_categories` list (`'' in [...]` is false, so Python's extra
falsiness guard for the empty category coincides with plain membership). -/
def should_escalate (category : String) : Bool :=
  decide (category = "returns" ∨ category = "policy_inquiry" ∨
    category = "escalate" ∨ category = "out_of_scope" ∨
    category = "complaint" ∨ category = "issue")

/-- Result dict of `EscalationHandler.generate_escalation_message`. -/
structure EscResult where
  response : String
  escalation_reason : String
  requires_human : Bool
  timestamp : String
deriving DecidableEq

/-- `EscalationHandler.generate_escalation_message`; `datetime.now()` is the
opaque parameter `ts`.  The query and confidence arguments are only printed by
the Python code, never used to select the template. -/
def generate_escalation_message (category : String) (_query : String)
    (_confidence : ℚ) (ts : String) : EscResult :=
  if category = "returns" then
    ⟨returnsMessage, "return_refund_request", true, ts⟩
  else if category = "out_of_scope" then
    ⟨outOfScopeMessage, "query_outside_knowledge_base", true, ts⟩
  else if category = "policy_inquiry" then
    ⟨policyInquiryMessage, "policy_clarification_needed", true, ts⟩
  else
    ⟨generalEscalationMessage, "general_support_needed", true, ts⟩

/-- `EscalationHandler.process`: returns the state unchanged when
`should_escalate` is false, otherwise installs the escalation response and
merges the escalation diagnostics into `metadata` (`{**state.metadata, ...}`). -/
def escProcess (ts : String) (state : ChatbotState) : ChatbotState :=
  let category := (state.classified_category.getD "")
  if should_escalate category then
    let result := generate_escalation_message category state.user_query
      (state.confidence_score.getD 0) ts
    { state with
      final_response := some result.response
      needs_escalation := true
      metadata :=
        setMeta (setMeta (setMeta (setMeta (setMeta state.metadata
          "escalation_reason" (.mstr result.escalation_reason))
          "requires_human" (.mbool result.requires_human))
          "escalation_timestamp" (.mstr result.timestamp))
          "support_email" (.mstr SUPPORT_EMAIL))
          "support_phone" (.mstr SUPPORT_PHONE) }
  else state

/-! ### RAG chain and RAG node (`rag_chain.py`, `rag_node.py`) -/

/-- `RAGChain.format_docs`. -/
def format_docs (docs : List Doc) : String :=
  if docs.isEmpty then "No relevant information found."
  else
    String.intercalate "\n\n"
      (docs.enum.map (fun p => "[Source " ++ toString (p.1 + 1) ++ "]\n" ++ p.2.page_content))

/-- The prompt built by `RAGChain.create_prompt_template` with the `context`
and `question` placeholders substituted. -/
def ragPrompt (context question : String) : String :=
  "You are a helpful customer service assistant for TechGear Electronics.\n\nYour role is to answer customer questions about our products, policies, and services.\n\nIMPORTANT INSTRUCTIONS:\n1. Answer ONLY based on the provided context\n2. If the context doesn't contain the answer, say \"I don't have that information in my knowledge base\"\n3. Be concise, friendly, and professional\n4. Include specific details like prices, features, and policies when available\n5. Do NOT make up or infer information not present in the context\n6. If asked about products not in the context, politely inform the customer\n\nContext:\n" ++ context ++ "\n\nCustomer Question: " ++ question ++ "\n\nYour Response:"

/-- The constant degraded apology of `RAGResponseNode.generate_response`. -/
def apologyMessage : String :=
  "I apologize, but I encountered an error processing your request. Please try again or contact our support team."

/-- The `retrieved_documents` entry built by
`RAGResponseNode.generate_response`: rank from 1, content and source. -/
def formatDocsForState (docs : List Doc) : List FormattedDoc :=
  docs.enum.map (fun p => ⟨p.1 + 1, p.2.page_content, p.2.source⟩)

/-- Result dict of `RAGResponseNode.generate_response`. -/
structure RAGResult where
  response : String
  retrieved_documents : List FormattedDoc
  document_count : Nat
  error : Option String
deriving DecidableEq

/-- `RAGResponseNode.generate_response`.  The retriever and the LLM completion
are the external collaborators `retrieve` and `complete`; `.error e` models a
raised exception, caught by the `try/except` which returns the apology
result.  The RAG chain (`rag_chain.query`) is retrieval, `format_docs`,
prompt construction and one completion call; the retriever is deterministic,
so its two invocations (once for the state, once inside the chain) are
modelled as one. -/
def generate_response (retrieve : String → Except String (List Doc))
    (complete : String → Except String String) (query : String) : RAGResult :=
  match retrieve query with
  | .error e => ⟨apologyMessage, [], 0, some e⟩
  | .ok docs =>
    match complete (ragPrompt (format_docs docs) query) with
    | .error e => ⟨apologyMessage, [], 0, some e⟩
    | .ok resp => ⟨resp, formatDocsForState docs, docs.length, none⟩

/-- `RAGResponseNode.should_use_rag` (again `'' in [...]` is false, so the
falsiness guard coincides with membership). -/
def should_use_rag (category : String) : Bool :=
  decide (category = "product" ∨ category = "general" ∨
    category = "product_inquiry" ∨ category = "general_inquiry")

/-- `RAGResponseNode.process`: returns the state unchanged when
`should_use_rag` is false, otherwise installs the RAG response, the retrieved
documents and the RAG diagnostics (merged into `metadata`; the `error` key is
always written, with `None` when there was no error). -/
def ragProcess (retrieve : String → Except String (List Doc))
    (complete : String → Except String String) (state : ChatbotState) :
    ChatbotState :=
  let category := (state.classified_category.getD "")
  if should_use_rag category then
    let result := generate_response retrieve complete state.user_query
    { state with
      final_response := some result.response
      retrieved_documents := some result.retrieved_documents
      metadata :=
        setMeta (setMeta (setMeta (setMeta state.metadata
          "rag_used" (.mbool true))
          "document_count" (.mnat result.document_count))
          "response_source" (.mstr "rag_chain"))
          "error" (match result.error with | some e => .mstr e | none => .mnone) }
  else state

/-! ### Workflow (`workflow.py`) -/

/-- The two targets of the conditional edge out of the classifier. -/
inductive Route where
  | rag : Route
  | escalation : Route
deriving DecidableEq

/-- The body of `ChatbotWorkflow._route_query` as a function of the category
string: `category in ["product", "general"]` chooses the RAG node, everything
else the escalation node. -/
def routeCat (category : String) : Route :=
  if category = "product" ∨ category = "general" then .rag else .escalation

/-- `ChatbotWorkflow._route_query`: reads `classified_category` (defaulting to
`"general"`) and routes on it. -/
def routeQuery (state : ChatbotState) : Route :=
  routeCat (state.classified_category.getD "general")

/-- The second stage of the compiled graph: the conditional edge dispatches to
exactly one of the two responder nodes, each of which is followed by END. -/
def runStep2 (retrieve : String → Except String (List Doc))
    (complete : String → Except String String) (ts : String)
    (state : ChatbotState) : ChatbotState :=
  match routeQuery state with
  | .rag => ragProcess retrieve complete state
  | .escalation => escProcess ts state

/-- `ChatbotWorkflow.run`: build the initial state, run the classifier node,
then the conditional edge and the selected responder node.  `ts0` is the
creation timestamp, `ts` the escalation timestamp, `cid` the generated
conversation id. -/
def run (retrieve : String → Except String (List Doc))
    (complete : String → Except String String) (ts0 ts cid : String)
    (user_query : String) : ChatbotState :=
  runStep2 retrieve complete ts (classifier_node (create_initial_state user_query cid ts0))

/-! ### Spec-side definitions (from the specification text, for comparison) -/

/-- Modelled from the spec: the "Source i" sections of §4.3 step 2, rendered
in retrieval-rank order starting at 1. -/
def formatDocsSpecAux : Nat → List Doc → List String
  | _, [] => []
  | i, d :: ds => ("[Source " ++ toString i ++ "]\n" ++ d.page_content) :: formatDocsSpecAux (i + 1) ds

/-- Modelled from the spec (§4.3 step 2): each document rendered as a labeled
"Source i" section in rank order, joined with blank-line separators; the fixed
sentinel for an empty retrieval. -/
def formatDocsSpec (docs : List Doc) : String :=
  if docs = [] then "No relevant information found."
  else String.intercalate "\n\n" (formatDocsSpecAux 1 docs)

/-- Modelled from the spec (§4.1 winner selection): the first category in the
declared enumeration order whose count equals the maximum. -/
def firstWithMax (scores : List (String × Nat)) (m : Nat) : Option String :=
  (scores.find? (fun p => p.2 == m)).map (fun p => p.1)

/-- A retriever stub that always succeeds with no documents. -/
def stubRetrieveEmpty : String → Except String (List Doc) := fun _ => .ok []

/-- A retriever stub that always raises. -/
def stubRetrieveFail : String → Except String (List Doc) := fun _ => .error "retriever down"

/-- A completion stub returning a fixed string. -/
def stubComplete (answer : String) : String → Except String String := fun _ => .ok answer

/-- A state as it reaches a responder node with category `"product"`. -/
def sampleProductState : ChatbotState :=
  { create_initial_state "What is the price of SmartWatch Pro X?" "cid-1" "t0" with
    classified_category := some "product", confidence_score := some 1 }

/-- A state as it reaches the escalation node with category `"complaint"`
(a category `should_escalate` accepts but `generate_escalation_message` has
no dedicated template for). -/
def sampleComplaintState : ChatbotState :=
  { create_initial_state "I have a complaint about my order" "cid-2" "t0" with
    classified_category := some "complaint", confidence_score := some 1 }

/-! ### Helper lemmas -/

theorem ratFloor_eq_floor (x : ℚ) : Rat.floor x = ⌊x⌋ := rfl

theorem roundHalfEven_bounds {x : ℚ} (h0 : 0 ≤ x) (h1 : x ≤ 100) :
    0 ≤ roundHalfEven x ∧ roundHalfEven x ≤ 100 := by
  unfold roundHalfEven
  rw [ratFloor_eq_floor]
  have hf0 : (0 : ℤ) ≤ ⌊x⌋ := Int.floor_nonneg.2 h0
  have hf1 : ⌊x⌋ ≤ 100 := by
    have h := Int.floor_le_floor (α := ℚ) h1
    simpa using h
  have hfx : (⌊x⌋ : ℚ) ≤ x := Int.floor_le x
  dsimp only
  split_ifs with hlt hgt heven
  · exact ⟨hf0, hf1⟩
  · have h99 : ⌊x⌋ ≤ 99 := by
      by_contra hc
      push_neg at hc
      have hc' : (100 : ℚ) ≤ (⌊x⌋ : ℚ) := by exact_mod_cast hc
      have : (1 : ℚ) / 2 < x - (⌊x⌋ : ℚ) := hgt
      linarith
    omega
  · exact ⟨hf0, hf1⟩
  · have heq : x - (⌊x⌋ : ℚ) = 1 / 2 := le_antisymm (not_lt.1 hgt) (not_lt.1 hlt)
    have h99 : ⌊x⌋ ≤ 99 := by
      by_contra hc
      push_neg at hc
      have hc' : (100 : ℚ) ≤ (⌊x⌋ : ℚ) := by exact_mod_cast hc
      linarith
    omega

theorem round2_bounds {x : ℚ} (h0 : 0 ≤ x) (h1 : x ≤ 1) :
    0 ≤ round2 x ∧ round2 x ≤ 1 := by
  unfold round2
  have hb := roundHalfEven_bounds (x := x * 100) (by linarith) (by linarith)
  constructor
  · apply div_nonneg _ (by norm_num)
    exact_mod_cast hb.1
  · rw [div_le_one (by norm_num : (0 : ℚ) < 100)]
    exact_mod_cast hb.2

theorem round2_three_tenths : round2 (3 / 10) = 3 / 10 := by
  have h30 : (3 : ℚ) / 10 * 100 = ((30 : ℤ) : ℚ) := by norm_num
  have hf : ⌊((30 : ℤ) : ℚ)⌋ = 30 := Int.floor_intCast 30
  unfold round2 roundHalfEven
  rw [ratFloor_eq_floor, h30, hf]
  norm_num

theorem scoreCategories_def (pq : String) :
    scoreCategories pq =
      [("product", match_keywords productPatterns pq),
       ("returns", match_keywords returnsPatterns pq),
       ("general", match_keywords generalPatterns pq)] := rfl

theorem maxCount3 (a b g : Nat) :
    maxCount [("product", a), ("returns", b), ("general", g)] =
      Nat.max (Nat.max (Nat.max 0 a) b) g := rfl

theorem totalCount3 (a b g : Nat) :
    totalCount [("product", a), ("returns", b), ("general", g)] =
      0 + a + b + g := rfl

theorem pickMax3 (a b g : Nat) :
    pickMaxCat [("product", a), ("returns", b), ("general", g)] =
      if g > (if b > a then ("returns", b) else ("product", a)).2
      then ("general", g)
      else if b > a then ("returns", b) else ("product", a) := rfl

theorem pickMax3_snd (a b g : Nat) :
    (pickMaxCat [("product", a), ("returns", b), ("general", g)]).2 =
      Nat.max (Nat.max (Nat.max 0 a) b) g := by
  rw [pickMax3]
  simp only [Nat.max_def]
  split_ifs <;> simp_all <;> omega

theorem pickMax3_fst_mem (a b g : Nat) :
    (pickMaxCat [("product", a), ("returns", b), ("general", g)]).1 = "product" ∨
    (pickMaxCat [("product", a), ("returns", b), ("general", g)]).1 = "returns" ∨
    (pickMaxCat [("product", a), ("returns", b), ("general", g)]).1 = "general" := by
  rw [pickMax3]
  split_ifs <;> simp

theorem pickMax3_first (a b g : Nat) :
    some (pickMaxCat [("product", a), ("returns", b), ("general", g)]).1 =
      firstWithMax [("product", a), ("returns", b), ("general", g)]
        (Nat.max (Nat.max (Nat.max 0 a) b) g) := by
  unfold firstWithMax
  rw [pickMax3]
  rcases Nat.lt_or_ge a b with hab | hab
  · rcases Nat.lt_or_ge b g with hbg | hbg
    · have hm : Nat.max (Nat.max (Nat.max 0 a) b) g = g := by
        simp only [Nat.max_def]; split_ifs <;> omega
      have e1 : (a == g) = false := by simp; omega
      have e2 : (b == g) = false := by simp; omega
      rw [hm, if_pos hab, if_pos (show ("returns", b).2 < g from hbg)]
      simp [List.find?, e1, e2]
    · have hm : Nat.max (Nat.max (Nat.max 0 a) b) g = b := by
        simp only [Nat.max_def]; split_ifs <;> omega
      have e1 : (a == b) = false := by simp; omega
      rw [hm, if_pos hab, if_neg (show ¬ ("returns", b).2 < g from not_lt.2 hbg)]
      simp [List.find?, e1]
  · rcases Nat.lt_or_ge a g with hag | hag
    · have hm : Nat.max (Nat.max (Nat.max 0 a) b) g = g := by
        simp only [Nat.max_def]; split_ifs <;> omega
      have e1 : (a == g) = false := by simp; omega
      have e2 : (b == g) = false := by simp; omega
      rw [hm, if_neg (not_lt.2 hab), if_pos (show ("product", a).2 < g from hag)]
      simp [List.find?, e1, e2]
    · have hm : Nat.max (Nat.max (Nat.max 0 a) b) g = a := by
        simp only [Nat.max_def]; split_ifs <;> omega
      rw [hm, if_neg (not_lt.2 hab), if_neg (show ¬ ("product", a).2 < g from not_lt.2 hag)]
      simp [List.find?]

theorem maxCount_le_totalCount (pq : String) :
    maxCount (scoreCategories pq) ≤ totalCount (scoreCategories pq) := by
  rw [scoreCategories_def, maxCount3, totalCount3]
  simp only [Nat.max_def]
  split_ifs <;> omega

theorem pickMaxCat_snd_scores (pq : String) :
    (pickMaxCat (scoreCategories pq)).2 = maxCount (scoreCategories pq) := by
  rw [scoreCategories_def, maxCount3]
  exact pickMax3_snd _ _ _

theorem classify_spec_zero (q : String)
    (h : maxCount (scoreCategories (preprocess_query q)) = 0) :
    classify q = ⟨"general", round2 (3 / 10), scoreCategories (preprocess_query q)⟩ := by
  simp only [classify]
  rw [if_pos h]

theorem classify_spec_pos (q : String)
    (h : 0 < maxCount (scoreCategories (preprocess_query q))) :
    classify q =
      ⟨(pickMaxCat (scoreCategories (preprocess_query q))).1,
        round2
          (if 1 < maxCount (scoreCategories (preprocess_query q)) then
            min ((maxCount (scoreCategories (preprocess_query q)) : ℚ) /
              (totalCount (scoreCategories (preprocess_query q)) : ℚ) + 1 / 5) 1
          else
            (maxCount (scoreCategories (preprocess_query q)) : ℚ) /
              (totalCount (scoreCategories (preprocess_query q)) : ℚ)),
        scoreCategories (preprocess_query q)⟩ := by
  have ht : 0 < totalCount (scoreCategories (preprocess_query q)) :=
    lt_of_lt_of_le h (maxCount_le_totalCount _)
  simp only [classify]
  rw [if_neg (by omega : ¬ maxCount (scoreCategories (preprocess_query q)) = 0)]
  rw [if_pos ht, pickMaxCat_snd_scores]

theorem classify_category_mem (q : String) :
    (classify q).category = "product" ∨ (classify q).category = "returns" ∨
      (classify q).category = "general" := by
  rcases Nat.eq_zero_or_pos (maxCount (scoreCategories (preprocess_query q))) with h | h
  · rw [classify_spec_zero q h]
    right; right; rfl
  · rw [classify_spec_pos q h]
    dsimp only
    simp only [scoreCategories_def]
    exact pickMax3_fst_mem _ _ _

/-! ### Claim theorems -/

/-- Claim C4: for every non-empty query, `classify` returns confidence 0.3
when no pattern of any category matches; otherwise the winning count divided
by the sum of all category counts, plus 0.2 capped at 1.0 when the winning
count exceeds 1, rounded to 2 decimal places; in all cases the confidence is
in [0, 1] and the category is in the fixed domain product/returns/general. -/
theorem classify_confidence_formula (q : String) (_hq : q ≠ "") :
    (maxCount (scoreCategories (preprocess_query q)) = 0 →
      (classify q).category = "general" ∧ (classify q).confidence = 3 / 10) ∧
    (0 < maxCount (scoreCategories (preprocess_query q)) →
      (classify q).confidence =
        round2
          (if 1 < maxCount (scoreCategories (preprocess_query q)) then
            min ((maxCount (scoreCategories (preprocess_query q)) : ℚ) /
              (totalCount (scoreCategories (preprocess_query q)) : ℚ) + 1 / 5) 1
          else
            (maxCount (scoreCategories (preprocess_query q)) : ℚ) /
              (totalCount (scoreCategories (preprocess_query q)) : ℚ))) ∧
    (0 ≤ (classify q).confidence ∧ (classify q).confidence ≤ 1) ∧
    ((classify q).category = "product" ∨ (classify q).category = "returns" ∨
      (classify q).category = "general") := by
  refine ⟨?_, ?_, ?_, classify_category_mem q⟩
  · intro h
    rw [classify_spec_zero q h]
    exact ⟨rfl, round2_three_tenths⟩
  · intro h
    rw [classify_spec_pos q h]
  · rcases Nat.eq_zero_or_pos (maxCount (scoreCategories (preprocess_query q))) with h | h
    · rw [classify_spec_zero q h]
      dsimp only
      rw [round2_three_tenths]
      constructor <;> norm_num
    · rw [classify_spec_pos q h]
      dsimp only
      have hmt : maxCount (scoreCategories (preprocess_query q)) ≤
          totalCount (scoreCategories (preprocess_query q)) := maxCount_le_totalCount _
      have ht : 0 < totalCount (scoreCategories (preprocess_query q)) :=
        lt_of_lt_of_le h hmt
      have htQ : (0 : ℚ) < (totalCount (scoreCategories (preprocess_query q)) : ℚ) := by
        exact_mod_cast ht
      have hdiv0 : 0 ≤ (maxCount (scoreCategories (preprocess_query q)) : ℚ) /
          (totalCount (scoreCategories (preprocess_query q)) : ℚ) :=
        div_nonneg (by positivity) (le_of_lt htQ)
      have hdiv1 : (maxCount (scoreCategories (preprocess_query q)) : ℚ) /
          (totalCount (scoreCategories (preprocess_query q)) : ℚ) ≤ 1 := by
        rw [div_le_one htQ]
        exact_mod_cast hmt
      refine round2_bounds ?_ ?_
      · split_ifs with h1
        · exact le_min (by linarith) (by norm_num)
        · exact hdiv0
      · split_ifs with h1
        · exact min_le_right _ _
        · exact hdiv1

/-- Witness for C4 at the concrete query "watch price" (two product patterns
match, no other category matches). -/
theorem classify_confidence_formula_witness :
    ("watch price" : String) ≠ "" ∧
    (0 ≤ (classify "watch price").confidence ∧ (classify "watch price").confidence ≤ 1) ∧
    ((classify "watch price").category = "product" ∨
      (classify "watch price").category = "returns" ∨
      (classify "watch price").category = "general") := by
  have h := classify_confidence_formula "watch price" (by decide)
  exact ⟨by decide, h.2.2.1, h.2.2.2⟩

/-- Claim C5: when two or more categories attain the same maximal
distinct-pattern count (and some pattern matched at all, so the zero-match
fallback of C4 does not apply), `classify` selects the first category in the
declared enumeration order of `CATEGORY_KEYWORDS` attaining the maximum. -/
theorem classify_tie_break (q : String)
    (hpos : 0 < maxCount (scoreCategories (preprocess_query q)))
    (_htie : 2 ≤ ((scoreCategories (preprocess_query q)).filter
        (fun p => p.2 == maxCount (scoreCategories (preprocess_query q)))).length) :
    some (classify q).category =
      firstWithMax (scoreCategories (preprocess_query q))
        (maxCount (scoreCategories (preprocess_query q))) := by
  rw [classify_spec_pos q hpos]
  dsimp only
  simp only [scoreCategories_def, maxCount3]
  exact pickMax3_first _ _ _

/-- Witness for C5 at the concrete query "return watch": product and returns
both match exactly one pattern, the tie is broken in favour of product. -/
theorem classify_tie_break_witness :
    0 < maxCount (scoreCategories (preprocess_query "return watch")) ∧
    2 ≤ ((scoreCategories (preprocess_query "return watch")).filter
        (fun p => p.2 == maxCount (scoreCategories (preprocess_query "return watch")))).length ∧
    some (classify "return watch").category =
      firstWithMax (scoreCategories (preprocess_query "return watch"))
        (maxCount (scoreCategories (preprocess_query "return watch"))) := by
  refine ⟨by decide, by decide, classify_tie_break "return watch" (by decide) (by decide)⟩

theorem classifier_node_preserves (s : ChatbotState) :
    (classifier_node s).needs_escalation = s.needs_escalation ∧
    (classifier_node s).user_query = s.user_query := by
  unfold classifier_node
  split <;> exact ⟨rfl, rfl⟩

theorem classifier_metadata_rag_used (s : ChatbotState) :
    (classifier_node s).metadata "rag_used" = none := by
  unfold classifier_node
  split <;> simp [setMeta, emptyMeta]

theorem setMeta_pres {m : Metadata} {k' k : String} {v : MetaVal}
    (h : m k ≠ none) : setMeta m k' v k ≠ none := by
  simp only [setMeta]
  split <;> simp_all

theorem gem_requires_human (category query : String) (conf : ℚ) (ts : String) :
    (generate_escalation_message category query conf ts).requires_human = true := by
  unfold generate_escalation_message
  split_ifs <;> rfl

theorem ragProcess_preserves_escalation
    (retrieve : String → Except String (List Doc))
    (complete : String → Except String String) (s : ChatbotState) :
    (ragProcess retrieve complete s).needs_escalation = s.needs_escalation := by
  simp only [ragProcess]
  split <;> rfl

theorem ragProcess_final_isSome
    (retrieve : String → Except String (List Doc))
    (complete : String → Except String String) (s : ChatbotState)
    (h : should_use_rag (s.classified_category.getD "") = true) :
    (ragProcess retrieve complete s).final_response.isSome = true := by
  simp [ragProcess, h]

theorem ragProcess_rag_used
    (retrieve : String → Except String (List Doc))
    (complete : String → Except String String) (s : ChatbotState)
    (h : should_use_rag (s.classified_category.getD "") = true) :
    (ragProcess retrieve complete s).metadata "rag_used" = some (.mbool true) := by
  simp [ragProcess, h, setMeta]

theorem escProcess_rag_used (ts : String) (s : ChatbotState) :
    (escProcess ts s).metadata "rag_used" = s.metadata "rag_used" := by
  simp only [escProcess]
  split
  · simp [setMeta]
  · rfl

theorem escProcess_fields (ts : String) (s : ChatbotState)
    (h : should_escalate (s.classified_category.getD "") = true) :
    (escProcess ts s).final_response =
      some (generate_escalation_message (s.classified_category.getD "")
        s.user_query (s.confidence_score.getD 0) ts).response ∧
    (escProcess ts s).needs_escalation = true ∧
    (escProcess ts s).metadata "escalation_reason" =
      some (.mstr (generate_escalation_message (s.classified_category.getD "")
        s.user_query (s.confidence_score.getD 0) ts).escalation_reason) ∧
    (escProcess ts s).metadata "requires_human" = some (.mbool true) ∧
    (escProcess ts s).metadata "support_email" = some (.mstr SUPPORT_EMAIL) ∧
    (escProcess ts s).metadata "support_phone" = some (.mstr SUPPORT_PHONE) := by
  simp only [escProcess]
  split_ifs
  refine ⟨rfl, rfl, ?_, ?_, ?_, ?_⟩ <;> simp [setMeta, gem_requires_human]

theorem enumFrom_map_sections (l : List Doc) (n : Nat) :
    (List.enumFrom n l).map
        (fun p => "[Source " ++ toString (p.1 + 1) ++ "]\n" ++ p.2.page_content) =
      formatDocsSpecAux (n + 1) l := by
  induction l generalizing n with
  | nil => rfl
  | cons d ds ih => simp [List.enumFrom, formatDocsSpecAux, ih]

/-- Claim C6: the routing function is total and deterministic on category
values: the RAG branch is taken exactly for "product" and "general", the
escalation branch for everything else (including labels outside the known
domain), and being a pure function of the category it cannot raise or drop. -/
theorem routeCat_total_deterministic (c : String) :
    (routeCat c = Route.rag ∨ routeCat c = Route.escalation) ∧
    (routeCat c = Route.rag ↔ (c = "product" ∨ c = "general")) ∧
    (routeCat c = Route.escalation ↔ ¬ (c = "product" ∨ c = "general")) := by
  unfold routeCat
  split_ifs with h <;> simp_all

/-- Claim C7: on the RAG path, if the retrieval call or the completion call
raises, the responder still sets `final_response` to the fixed degraded
apology message and records the failure under the metadata key "error"; the
exception does not propagate (the result is an ordinary updated state). -/
theorem ragProcess_failure_degrades
    (retrieve : String → Except String (List Doc))
    (complete : String → Except String String) (state : ChatbotState) (e : String)
    (hcat : should_use_rag (state.classified_category.getD "") = true)
    (hfail : retrieve state.user_query = .error e ∨
      ∃ docs, retrieve state.user_query = .ok docs ∧
        complete (ragPrompt (format_docs docs) state.user_query) = .error e) :
    (ragProcess retrieve complete state).final_response = some apologyMessage ∧
    (ragProcess retrieve complete state).metadata "error" = some (.mstr e) := by
  rcases hfail with h | ⟨docs, h1, h2⟩
  · constructor <;> simp [ragProcess, hcat, generate_response, h, setMeta]
  · constructor <;> simp [ragProcess, hcat, generate_response, h1, h2, setMeta]

/-- Witness for C7: a retriever stub that raises, on a state classified
"product". -/
theorem ragProcess_failure_degrades_witness :
    should_use_rag (sampleProductState.classified_category.getD "") = true ∧
    (ragProcess stubRetrieveFail (stubComplete "unused") sampleProductState).final_response =
      some apologyMessage ∧
    (ragProcess stubRetrieveFail (stubComplete "unused") sampleProductState).metadata "error" =
      some (.mstr "retriever down") := by
  have h := ragProcess_failure_degrades stubRetrieveFail (stubComplete "unused")
    sampleProductState "retriever down" (by decide) (Or.inl rfl)
  exact ⟨by decide, h.1, h.2⟩

/-- Claim C8: the context formatter renders each retrieved document as a
labeled "Source i" section in retrieval-rank order joined by blank lines
(`formatDocsSpec` is the spec-side rendering), returns the fixed sentinel for
the empty list, and with a retriever returning zero documents the RAG node
still produces a non-null `final_response` from the completion of the
sentinel-context prompt. -/
theorem format_docs_contract :
    (∀ docs : List Doc, format_docs docs = formatDocsSpec docs) ∧
    (∀ (retrieve : String → Except String (List Doc))
        (complete : String → Except String String) (state : ChatbotState) (r : String),
        should_use_rag (state.classified_category.getD "") = true →
        retrieve state.user_query = .ok ([] : List Doc) →
        complete (ragPrompt "No relevant information found." state.user_query) = .ok r →
        (ragProcess retrieve complete state).final_response = some r ∧
        (ragProcess retrieve complete state).retrieved_documents =
          some ([] : List FormattedDoc)) := by
  constructor
  · intro docs
    cases docs with
    | nil => rfl
    | cons d ds =>
      simp only [format_docs, formatDocsSpec]
      rw [if_neg (by simp), if_neg (by simp)]
      show String.intercalate "\n\n" ((List.enumFrom 0 (d :: ds)).map _) = _
      rw [enumFrom_map_sections]
  · intro retrieve complete state r hcat hret hcomp
    have hc2 : complete (ragPrompt (format_docs ([] : List Doc)) state.user_query) = .ok r :=
      hcomp
    constructor <;> simp [ragProcess, hcat, generate_response, hret, hc2, formatDocsForState]

/-- Witness for C8: one concrete document, and the zero-document path with a
stub retriever and stub completion on a state classified "product". -/
theorem format_docs_contract_witness :
    format_docs [⟨"SmartWatch Pro X is priced at 15999.", "product_info.txt"⟩] =
      formatDocsSpec [⟨"SmartWatch Pro X is priced at 15999.", "product_info.txt"⟩] ∧
    should_use_rag (sampleProductState.classified_category.getD "") = true ∧
    (ragProcess stubRetrieveEmpty (stubComplete "I don't have that information in my knowledge base")
        sampleProductState).final_response =
      some "I don't have that information in my knowledge base" := by
  refine ⟨format_docs_contract.1 _, by decide, ?_⟩
  exact (format_docs_contract.2 stubRetrieveEmpty
    (stubComplete "I don't have that information in my knowledge base")
    sampleProductState _ (by decide) rfl rfl).1

/-- Claim C9: along every execution of the workflow, the metadata keys present
after the classifier step are preserved by the responder step, and the keys
present initially (the initial metadata is the empty dict) are preserved by
the classifier step: the map is append-only across the pipeline. -/
theorem metadata_append_only
    (retrieve : String → Except String (List Doc))
    (complete : String → Except String String) (ts0 ts cid q k : String) :
    ((create_initial_state q cid ts0).metadata k ≠ none →
      (classifier_node (create_initial_state q cid ts0)).metadata k ≠ none) ∧
    ((classifier_node (create_initial_state q cid ts0)).metadata k ≠ none →
      (run retrieve complete ts0 ts cid q).metadata k ≠ none) := by
  constructor
  · intro h
    exact absurd rfl h
  · intro h
    unfold run runStep2
    cases hroute : routeQuery (classifier_node (create_initial_state q cid ts0)) with
    | rag =>
      dsimp only
      simp only [ragProcess]
      split
      · exact setMeta_pres (setMeta_pres (setMeta_pres (setMeta_pres h)))
      · exact h
    | escalation =>
      dsimp only
      simp only [escProcess]
      split
      · exact setMeta_pres (setMeta_pres (setMeta_pres (setMeta_pres (setMeta_pres h))))
      · exact h

/-- Witness for C9: the key "classifier_type" written by the classifier for
the query "refund" survives through the escalation step of the full run. -/
theorem metadata_append_only_witness :
    (classifier_node (create_initial_state "refund" "cid" "t0")).metadata "classifier_type" ≠
      none ∧
    (run stubRetrieveEmpty (stubComplete "ok") "t0" "t1" "cid" "refund").metadata
      "classifier_type" ≠ none := by
  have h1 : (classifier_node (create_initial_state "refund" "cid" "t0")).metadata
      "classifier_type" ≠ none := by decide
  exact ⟨h1, (metadata_append_only stubRetrieveEmpty (stubComplete "ok")
    "t0" "t1" "cid" "refund" "classifier_type").2 h1⟩

/-- Claim C10: a whitespace-only query is non-empty as a raw string, so the
classifier node does not take the empty-query branch: it is scored after
trimming to the empty string, no pattern matches, and the result is category
"general" with confidence 0.3 and no "error" marker — unlike the literal
empty string, which yields confidence 0.0 and the error marker. -/
theorem whitespace_query_not_empty_branch (cid ts q : String)
    (hne : q ≠ "") (hws : preprocess_query q = "") :
    ((classifier_node (create_initial_state q cid ts)).classified_category = some "general" ∧
     (classifier_node (create_initial_state q cid ts)).confidence_score = some (3 / 10) ∧
     (classifier_node (create_initial_state q cid ts)).metadata "error" = none) ∧
    ((classifier_node (create_initial_state "" cid ts)).classified_category = some "general" ∧
     (classifier_node (create_initial_state "" cid ts)).confidence_score = some 0 ∧
     (classifier_node (create_initial_state "" cid ts)).metadata "error" =
       some (.mstr "Empty query")) := by
  have hscores : scoreCategories (preprocess_query q) =
      [("product", 0), ("returns", 0), ("general", 0)] := by
    rw [hws]; decide
  have hmax : maxCount (scoreCategories (preprocess_query q)) = 0 := by
    rw [hscores]; rfl
  have hcls := classify_spec_zero q hmax
  constructor
  · simp only [classifier_node, create_initial_state]
    rw [if_neg hne, hcls]
    refine ⟨rfl, ?_, ?_⟩
    · simp [round2_three_tenths]
    · simp [setMeta, emptyMeta]
  · exact ⟨rfl, rfl, rfl⟩

/-- Witness for C10 at the one-space query. -/
theorem whitespace_query_not_empty_branch_witness :
    (" " : String) ≠ "" ∧ preprocess_query " " = "" ∧
    (classifier_node (create_initial_state " " "cid" "t0")).classified_category =
      some "general" ∧
    (classifier_node (create_initial_state " " "cid" "t0")).metadata "error" = none := by
  have h := whitespace_query_not_empty_branch "cid" "t0" " " (by decide) (by decide)
  exact ⟨by decide, by decide, h.1.1, h.1.2.2⟩

/-- Claim C1: every run of the workflow executes exactly one responder after
classification: at the terminal state `final_response` is non-null, and
exactly one of "the escalation responder ran" (`needs_escalation = true`, no
RAG marker) and "the RAG responder ran" (`needs_escalation = false`, metadata
key "rag_used" set to `True`) holds — never both, never neither. -/
theorem workflow_exactly_one_responder
    (retrieve : String → Except String (List Doc))
    (complete : String → Except String String) (ts0 ts cid q : String) :
    (run retrieve complete ts0 ts cid q).final_response.isSome = true ∧
    (((run retrieve complete ts0 ts cid q).needs_escalation = true ∧
      (run retrieve complete ts0 ts cid q).metadata "rag_used" = none) ∨
     ((run retrieve complete ts0 ts cid q).needs_escalation = false ∧
      (run retrieve complete ts0 ts cid q).metadata "rag_used" = some (.mbool true))) := by
  have hcat : (classifier_node (create_initial_state q cid ts0)).classified_category =
        some "product" ∨
      (classifier_node (create_initial_state q cid ts0)).classified_category =
        some "general" ∨
      (classifier_node (create_initial_state q cid ts0)).classified_category =
        some "returns" := by
    by_cases hq : q = ""
    · subst hq
      right; left; rfl
    · have hcc : (classifier_node (create_initial_state q cid ts0)).classified_category =
          some (classify q).category := by
        simp only [classifier_node, create_initial_state]
        rw [if_neg hq]
      rw [hcc]
      rcases classify_category_mem q with h | h | h
      · left; rw [h]
      · right; right; rw [h]
      · right; left; rw [h]
  have hne : (classifier_node (create_initial_state q cid ts0)).needs_escalation = false := by
    rw [(classifier_node_preserves _).1]
    rfl
  unfold run runStep2
  rcases hcat with hc | hc | hc
  · have hroute : routeQuery (classifier_node (create_initial_state q cid ts0)) =
        Route.rag := by
      unfold routeQuery
      rw [hc]
      rfl
    rw [hroute]
    dsimp only
    have hguard : should_use_rag
        ((classifier_node (create_initial_state q cid ts0)).classified_category.getD "") =
        true := by
      rw [hc]
      rfl
    refine ⟨ragProcess_final_isSome _ _ _ hguard,
      Or.inr ⟨?_, ragProcess_rag_used _ _ _ hguard⟩⟩
    rw [ragProcess_preserves_escalation]
    exact hne
  · have hroute : routeQuery (classifier_node (create_initial_state q cid ts0)) =
        Route.rag := by
      unfold routeQuery
      rw [hc]
      rfl
    rw [hroute]
    dsimp only
    have hguard : should_use_rag
        ((classifier_node (create_initial_state q cid ts0)).classified_category.getD "") =
        true := by
      rw [hc]
      rfl
    refine ⟨ragProcess_final_isSome _ _ _ hguard,
      Or.inr ⟨?_, ragProcess_rag_used _ _ _ hguard⟩⟩
    rw [ragProcess_preserves_escalation]
    exact hne
  · have hroute : routeQuery (classifier_node (create_initial_state q cid ts0)) =
        Route.escalation := by
      unfold routeQuery
      rw [hc]
      rfl
    rw [hroute]
    dsimp only
    have hguard : should_escalate
        ((classifier_node (create_initial_state q cid ts0)).classified_category.getD "") =
        true := by
      rw [hc]
      rfl
    have hf := escProcess_fields ts (classifier_node (create_initial_state q cid ts0)) hguard
    refine ⟨?_, Or.inl ⟨hf.2.1, ?_⟩⟩
    · rw [hf.1]
      rfl
    · rw [escProcess_rag_used]
      exact classifier_metadata_rag_used _

/-- Claim C2 (amended): for every state whose `classified_category` is in the
escalation set accepted by `should_escalate` (categories without a dedicated
template falling through to the general template), the escalation responder
sets `final_response` to a canned template, sets `needs_escalation = true`,
and records `escalation_reason` plus the support contact fields into
`metadata`, never raising; for any other category the original claim fails:
the state is returned unchanged with `final_response` unset. -/
theorem escalation_process_contract (ts : String) (state : ChatbotState)
    (h : should_escalate (state.classified_category.getD "") = true) :
    (escProcess ts state).final_response =
      some (generate_escalation_message (state.classified_category.getD "")
        state.user_query (state.confidence_score.getD 0) ts).response ∧
    (escProcess ts state).needs_escalation = true ∧
    (escProcess ts state).metadata "escalation_reason" =
      some (.mstr (generate_escalation_message (state.classified_category.getD "")
        state.user_query (state.confidence_score.getD 0) ts).escalation_reason) ∧
    (escProcess ts state).metadata "requires_human" = some (.mbool true) ∧
    (escProcess ts state).metadata "support_email" = some (.mstr SUPPORT_EMAIL) ∧
    (escProcess ts state).metadata "support_phone" = some (.mstr SUPPORT_PHONE) ∧
    (state.classified_category.getD "" ≠ "returns" →
      state.classified_category.getD "" ≠ "out_of_scope" →
      state.classified_category.getD "" ≠ "policy_inquiry" →
      (escProcess ts state).final_response = some generalEscalationMessage) := by
  have hf := escProcess_fields ts state h
  refine ⟨hf.1, hf.2.1, hf.2.2.1, hf.2.2.2.1, hf.2.2.2.2.1, hf.2.2.2.2.2, ?_⟩
  intro h1 h2 h3
  rw [hf.1]
  unfold generate_escalation_message
  rw [if_neg h1, if_neg h3, if_neg h2]

/-- Counterexample for C2 as stated: on a state classified "product" the
escalation responder returns the state unchanged, leaving `final_response`
unset and `needs_escalation` false. -/
theorem escalation_skips_nonescalation_category :
    (escProcess "t1" sampleProductState).final_response = none ∧
    (escProcess "t1" sampleProductState).needs_escalation = false ∧
    escProcess "t1" sampleProductState = sampleProductState := by
  exact ⟨rfl, rfl, rfl⟩

/-- Witness for the amended C2 at category "complaint", which has no dedicated
template and falls through to the general escalation template. -/
theorem escalation_process_contract_witness :
    should_escalate (sampleComplaintState.classified_category.getD "") = true ∧
    (escProcess "t1" sampleComplaintState).final_response = some generalEscalationMessage ∧
    (escProcess "t1" sampleComplaintState).needs_escalation = true ∧
    (escProcess "t1" sampleComplaintState).metadata "support_email" =
      some (.mstr SUPPORT_EMAIL) := by
  have h := escalation_process_contract "t1" sampleComplaintState (by decide)
  exact ⟨by decide, h.2.2.2.2.2.2 (by decide) (by decide) (by decide), h.2.1,
    h.2.2.2.2.1⟩

/-- Claim C3 (amended): for the empty query the classifier node assigns
category "general" with confidence exactly 0, records the metadata error
marker "Empty query", and performs no keyword scoring (no
"classification_scores" entry is produced); the state is then routed to the
RAG node — so, contrary to the original claim, retrieval and completion are
attempted before returning (the RAG node runs and sets its "rag_used"
marker). -/
theorem empty_query_classification_routes_to_rag
    (retrieve : String → Except String (List Doc))
    (complete : String → Except String String) (ts0 ts cid : String) :
    (classifier_node (create_initial_state "" cid ts0)).classified_category =
      some "general" ∧
    (classifier_node (create_initial_state "" cid ts0)).confidence_score = some 0 ∧
    (classifier_node (create_initial_state "" cid ts0)).metadata "error" =
      some (.mstr "Empty query") ∧
    (classifier_node (create_initial_state "" cid ts0)).metadata "classification_scores" =
      none ∧
    routeQuery (classifier_node (create_initial_state "" cid ts0)) = Route.rag ∧
    (run retrieve complete ts0 ts cid "").metadata "rag_used" = some (.mbool true) := by
  refine ⟨rfl, rfl, rfl, ?_, rfl, ?_⟩
  · simp [classifier_node, create_initial_state, setMeta, emptyMeta]
  · unfold run runStep2
    rw [show routeQuery (classifier_node (create_initial_state "" cid ts0)) = Route.rag
      from rfl]
    dsimp only
    exact ragProcess_rag_used _ _ _ rfl

/-- Counterexample for C3 as stated: for the empty query the terminal response
is exactly whatever the completion backend returns (so a completion, and with
it the retrieval feeding its prompt, is attempted): two different stub
completions yield two different terminal responses. -/
theorem empty_query_rag_attempt_counterexample :
    (run stubRetrieveEmpty (stubComplete "STUB COMPLETION A") "t0" "t1" "cid" "").final_response =
      some "STUB COMPLETION A" ∧
    (run stubRetrieveEmpty (stubComplete "STUB COMPLETION B") "t0" "t1" "cid" "").final_response =
      some "STUB COMPLETION B" ∧
    (run stubRetrieveEmpty (stubComplete "STUB COMPLETION A") "t0" "t1" "cid" "").final_response ≠
      (run stubRetrieveEmpty (stubComplete "STUB COMPLETION B") "t0" "t1" "cid" "").final_response := by
  refine ⟨rfl, rfl, by decide⟩
